import Mathlib

/-!
Shallow embedding of the `linklog` Lambda handler (`main.go`): the Metadata
Resolver (`fetchMetadata`), the CRUD dispatcher (`handler`) and the content
negotiation (`respond`).  External collaborators (the HTTP/goquery layer, the
sqlc-generated store, `net/url`, `html/template`, `encoding/json`) are
represented as oracle functions supplied through an environment record; the
decision logic of the repository is translated statement by statement.
-/

namespace Linklog

/-- Go `sql.NullString` (a string plus a validity flag), as used by the
sqlc-generated `models` package. -/
structure NullString where
  string : String
  valid : Bool
deriving DecidableEq, Repr

/-- The zero value of `sql.NullString`. -/
def NullString.zero : NullString := ⟨"", false⟩

/-- The `models.Link` row, per `embedsql/schema.sql`
(`id, url, commentary, title, image_url`). -/
structure Link where
  ID : Int
  Url : String
  Commentary : String
  Title : NullString
  ImageUrl : NullString
deriving DecidableEq, Repr

/-- The zero value of `models.Link` (what a failed `GetLink` scan leaves
behind in Go). -/
def Link.zero : Link := ⟨0, "", "", NullString.zero, NullString.zero⟩

/-- `models.CreateLinkParams` (arguments of the `CreateLink` query). -/
structure CreateLinkParams where
  Url : String
  Commentary : String
  Title : NullString
  ImageUrl : NullString
deriving DecidableEq, Repr

/-- `models.UpdateLinkParams` (arguments of the `UpdateLink` query). -/
structure UpdateLinkParams where
  ID : Int
  Url : String
  Commentary : String
  Title : NullString
  ImageUrl : NullString
deriving DecidableEq, Repr

/-- `LinkMetadata` from `main.go`: metadata extracted from a webpage. -/
structure LinkMetadata where
  Title : String
  ImageURL : String
deriving DecidableEq, Repr

/-- The goquery query results that `fetchMetadata` inspects on a fetched
document: the text of `title`, the `content` attributes of the four meta
selectors (`none` = attribute/element absent), and for each `img` element in
document order its `src` attribute (`none` = no `src`). -/
structure Doc where
  titleText : String
  ogTitle : Option String
  metaNameTitle : Option String
  ogImage : Option String
  twitterImage : Option String
  imgSrcs : List (Option String)
deriving DecidableEq, Repr

/-- The `Scheme` and `Host` fields of a parsed Go `url.URL`. -/
structure GoURL where
  Scheme : String
  Host : String
deriving DecidableEq, Repr

/-- Model of Go `strings.HasPrefix`. -/
def hasPrefix (s pre : String) : Bool :=
  pre.data.isPrefixOf s.data

/-- Model of Go `strings.TrimSpace` (ASCII whitespace; Go additionally trims
a few rare Unicode space characters that play no role here). -/
def trimSpace (s : String) : String :=
  ⟨((s.data.dropWhile Char.isWhitespace).reverse.dropWhile Char.isWhitespace).reverse⟩

/-- Model of Go `net/url.Parse` restricted to the two fields the program
reads (`Scheme`, `Host`), defined for absolute URLs of the form
`scheme://host[/path...]`; `none` stands for a base URL unusable for
relative-image resolution. -/
def parseURL (s : String) : Option GoURL :=
  let cs := s.data
  let scheme := cs.takeWhile (fun c => c != ':')
  let rest := cs.drop scheme.length
  if rest.take 3 = [':', '/', '/'] then
    let host := (rest.drop 3).takeWhile (fun c => c != '/' && c != '?' && c != '#')
    some ⟨⟨scheme⟩, ⟨host⟩⟩
  else none

/-- Numeric value of a run of decimal digits. -/
def digitsVal (cs : List Char) : Nat :=
  cs.foldl (fun acc c => acc * 10 + (c.toNat - '0'.toNat)) 0

/-- Model of Go `strconv.Atoi`: an optional sign followed by one or more
decimal digits (the 64-bit range check is omitted). `none` is the error
case; Go additionally returns `0` as the integer value on error. -/
def atoi (s : String) : Option Int :=
  let signed : List Char → Int → Option Int := fun cs sign =>
    if cs ≠ [] ∧ cs.all Char.isDigit then some (sign * (digitsVal cs : Int)) else none
  match s.data with
  | '-' :: rest => signed rest (-1)
  | '+' :: rest => signed rest 1
  | cs => signed cs 1

/-- Title extraction of `fetchMetadata` (main.go lines 61-68): the branch on
the raw `title` text being non-empty, else the branch on the `og:title`
attribute existing, else the branch on the `title` meta name existing. -/
def extractTitle (doc : Doc) : String :=
  if doc.titleText != "" then trimSpace doc.titleText
  else
    match doc.ogTitle with
    | some t => trimSpace t
    | none =>
        match doc.metaNameTitle with
        | some t => trimSpace t
        | none => ""

/-- One step of the `doc.Find("img").Each` loop of `fetchMetadata`
(main.go lines 77-94): a candidate is only examined while `metadata.ImageURL`
is still empty, and the three prefix cases construct the image URL. -/
def imgStep (urlStr : String) (acc : String) (srcOpt : Option String) : String :=
  if acc != "" then acc
  else
    match srcOpt with
    | none => acc
    | some src =>
        if hasPrefix src "//" then "https:" ++ src
        else if hasPrefix src "/" then
          match parseURL urlStr with
          | some u => (u.Scheme ++ "://" ++ u.Host) ++ src
          | none => acc
        else if hasPrefix src "http" then src
        else acc

/-- The whole `img` scan: the `Each` callback applied to every `img`
element in document order. -/
def scanImgs (urlStr : String) (imgs : List (Option String)) : String :=
  imgs.foldl (imgStep urlStr) ""

/-- Image extraction of `fetchMetadata` (main.go lines 70-95): `og:image`
attribute if it exists, else `twitter:image` attribute if it exists, else
the first-image scan. -/
def extractImage (urlStr : String) (doc : Doc) : String :=
  match doc.ogImage with
  | some img => img
  | none =>
      match doc.twitterImage with
      | some img => img
      | none => scanImgs urlStr doc.imgSrcs

/-- The pure part of `fetchMetadata`: extraction from an already fetched and
parsed document. -/
def fetchMetadataFromDoc (urlStr : String) (doc : Doc) : LinkMetadata :=
  { Title := extractTitle doc, ImageURL := extractImage urlStr doc }

/-- `fetchMetadata` itself, with the HTTP fetch + goquery parse supplied as
an oracle (`.error` = transport or parse failure, in which case the zero
`LinkMetadata` and the error are returned). -/
def fetchMetadata (fetch : String → Except String Doc) (urlStr : String) :
    Except String LinkMetadata :=
  match fetch urlStr with
  | .error e => .error e
  | .ok doc => .ok (fetchMetadataFromDoc urlStr doc)

/-- The four compiled templates of `main.go`. -/
inductive TemplateId where
  | list
  | link
  | edit
  | detail
deriving DecidableEq, Repr

/-- The `any` value handed to `respond` (and to template execution), as the
tagged union of the shapes the `switch v := data.(type)` can see: a slice of
links, a single link, or anything else. -/
inductive RespondData where
  | links : List Link → RespondData
  | link : Link → RespondData
  | other : RespondData
deriving DecidableEq, Repr

/-- The parts of `events.APIGatewayProxyRequest` the handler reads: the HTTP
method, the query-string parameters (a map; absent keys read as `""`), the
raw body, and `Headers["hx-request"]` (`""` when the header is absent). -/
structure Request where
  method : String
  queryParams : List (String × String)
  body : String
  hxRequest : String

/-- `req.QueryStringParameters[k]`: Go map access, `""` for an absent key. -/
def qp (req : Request) (k : String) : String :=
  (req.queryParams.lookup k).getD ""

/-- The `ok` of the two-valued Go map access `v, ok := m[k]`. -/
def qpOk (req : Request) (k : String) : Bool :=
  (req.queryParams.lookup k).isSome

/-- `formData.Get(k)` on parsed `url.Values`: first value for the key, `""`
if the key is absent. -/
def formGet (form : List (String × String)) (k : String) : String :=
  (form.lookup k).getD ""

/-- The parts of `events.APIGatewayProxyResponse` the handler writes. -/
structure Response where
  statusCode : Nat
  headers : List (String × String)
  body : String
deriving DecidableEq, Repr

/-- External calls the handler performs, recorded in order (the effect
trace). -/
inductive Event where
  | getLink : Int → Event
  | listLinks : Event
  | createLink : CreateLinkParams → Event
  | updateLink : UpdateLinkParams → Event
  | deleteLink : Int → Event
  | fetchMeta : String → Event
deriving DecidableEq, Repr

/-- Whether an event mutates the store (`CreateLink`, `UpdateLink` or
`DeleteLink`). -/
def Event.isWrite : Event → Bool
  | .createLink _ => true
  | .updateLink _ => true
  | .deleteLink _ => true
  | _ => false

/-- Oracle environment for the external collaborators: database open + DDL
execution, the HTTP fetch + goquery parse behind `fetchMetadata`,
`url.ParseQuery`, the five sqlc store queries, `template.Execute` for each
compiled template, and `json.Marshal`. -/
structure Env where
  sqlOpen : Except String Unit
  execDDL : Except String Unit
  fetch : String → Except String Doc
  parseQuery : String → Except String (List (String × String))
  getLink : Int → Except String Link
  listLinks : Except String (List Link)
  createLink : CreateLinkParams → Except String Int
  updateLink : UpdateLinkParams → Except String Unit
  deleteLink : Int → Except String Unit
  execTemplate : TemplateId → RespondData → Except String String
  jsonMarshal : RespondData → Except String String

/-- `queries.GetLink` with its error discarded, as in the create re-read and
the edit-form branch: on failure the zero-valued `Link` left behind by the
failed row scan is used. -/
def getLinkOr (env : Env) (id : Int) : Link :=
  match env.getLink id with
  | .ok l => l
  | .error _ => Link.zero

/-- The `CreateLinkParams` the POST branch builds from a validated form
(main.go lines 163-170): url and commentary from the form; when
`fetchMetadata` succeeds, each `NullString` holds the extracted string with
`Valid` set exactly when the string is non-empty; when it fails, both stay
at their zero value. -/
def buildCreateParams (env : Env) (Url content : String) : CreateLinkParams :=
  match fetchMetadata env.fetch Url with
  | .ok m => ⟨Url, content, ⟨m.Title, m.Title != ""⟩, ⟨m.ImageURL, m.ImageURL != ""⟩⟩
  | .error _ => ⟨Url, content, NullString.zero, NullString.zero⟩

/-- The `UpdateLinkParams` the PUT full-update branch builds
(main.go lines 212-229): id from the fetched row, url and commentary from
the form; metadata re-resolved only when the submitted url differs from the
stored one (with the same `Valid`-iff-non-empty flags, and the zero
`NullString`s when the resolver fails), otherwise carried forward from the
stored row. -/
def buildUpdateParams (env : Env) (linkObj : Link) (Url content : String) :
    UpdateLinkParams :=
  if Url != linkObj.Url then
    match fetchMetadata env.fetch Url with
    | .ok m =>
        ⟨linkObj.ID, Url, content, ⟨m.Title, m.Title != ""⟩, ⟨m.ImageURL, m.ImageURL != ""⟩⟩
    | .error _ => ⟨linkObj.ID, Url, content, NullString.zero, NullString.zero⟩
  else ⟨linkObj.ID, Url, content, linkObj.Title, linkObj.ImageUrl⟩

/-- `respond` (main.go lines 267-313): if `Headers["hx-request"] == "true"`,
dispatch on the dynamic shape of the data — a link slice renders the list
template, a single link the detail template when `view=detail` else the
single-link template, anything else is a 400; otherwise marshal to JSON.
Template/marshal failures are 500s with no headers and empty body. -/
def respond (env : Env) (req : Request) (data : RespondData) : Response :=
  if req.hxRequest == "true" then
    match data with
    | .links _ =>
        match env.execTemplate .list data with
        | .error _ => ⟨500, [], ""⟩
        | .ok s => ⟨200, [("Content-Type", "text/html")], s⟩
    | .link _ =>
        if qp req "view" == "detail" then
          match env.execTemplate .detail data with
          | .error _ => ⟨500, [], ""⟩
          | .ok s => ⟨200, [("Content-Type", "text/html")], s⟩
        else
          match env.execTemplate .link data with
          | .error _ => ⟨500, [], ""⟩
          | .ok s => ⟨200, [("Content-Type", "text/html")], s⟩
    | .other => ⟨400, [], ""⟩
  else
    match env.jsonMarshal data with
    | .error _ => ⟨500, [], ""⟩
    | .ok s => ⟨200, [("Content-Type", "application/json")], s⟩

/-- `handler` (main.go lines 104-265), returning the response together with
the trace of store/metadata calls performed.  Statement-level notes kept
from the source: in the GET branch the `!ok` check is dead code behind
`id != ""`; in the PUT edit-form branch the `Atoi` and `GetLink` errors are
both discarded (shadowed assignments), so an unparseable id is used as `0`
and a failed fetch renders the zero `Link`; in the PUT full-update branch
the `Atoi` error is likewise discarded before `GetLink`, and the
`if err != nil` at lines 204-206 is dead code; in the POST branch the
re-read `GetLink` error is discarded. -/
def handler (env : Env) (req : Request) : Response × List Event :=
  match env.sqlOpen with
  | .error _ => (⟨500, [], ""⟩, [])
  | .ok _ =>
  match env.execDDL with
  | .error _ => (⟨500, [], ""⟩, [])
  | .ok _ =>
  if req.method = "GET" then
    if qp req "id" != "" then
      if !(qpOk req "id") then (⟨400, [], "Missing link ID"⟩, [])
      else
        match atoi (qp req "id") with
        | none => (⟨400, [], "Invalid link ID"⟩, [])
        | some linkId =>
          match env.getLink linkId with
          | .error e => (⟨500, [], e⟩, [Event.getLink linkId])
          | .ok linkObj => (respond env req (.link linkObj), [Event.getLink linkId])
    else
      match env.listLinks with
      | .error _ => (⟨500, [], ""⟩, [Event.listLinks])
      | .ok links => (respond env req (.links links), [Event.listLinks])
  else if req.method = "POST" then
    match env.parseQuery req.body with
    | .error _ => (⟨400, [], "Invalid request body"⟩, [])
    | .ok formData =>
      let Url := formGet formData "url"
      let content := formGet formData "commentary"
      if content = "" ∨ Url = "" then (⟨400, [], "Invalid request body"⟩, [])
      else
        let p := buildCreateParams env Url content
        match env.createLink p with
        | .error e => (⟨500, [], e⟩, [Event.fetchMeta Url, Event.createLink p])
        | .ok cid =>
          (respond env req (.link (getLinkOr env cid)),
           [Event.fetchMeta Url, Event.createLink p, Event.getLink cid])
  else if req.method = "PUT" then
    let linkIdStr := qp req "id"
    match env.parseQuery req.body with
    | .error _ => (⟨400, [], "Invalid request body"⟩, [])
    | .ok formData =>
      if formData.isEmpty && linkIdStr != "" then
        let linkId := (atoi linkIdStr).getD 0
        let linkObj := getLinkOr env linkId
        match env.execTemplate .edit (.link linkObj) with
        | .error e => (⟨500, [], e⟩, [Event.getLink linkId])
        | .ok s =>
          (⟨200, [("Content-Type", "text/html")], s⟩, [Event.getLink linkId])
      else
        let linkId := (atoi linkIdStr).getD 0
        match env.getLink linkId with
        | .error _ => (⟨400, [], "Invalid link ID"⟩, [Event.getLink linkId])
        | .ok linkObj =>
          let Url := formGet formData "url"
          let content := formGet formData "commentary"
          if content = "" ∨ Url = "" then
            (⟨400, [], "Invalid request body"⟩, [Event.getLink linkId])
          else
            let fetchEvents :=
              if Url != linkObj.Url then [Event.fetchMeta Url] else []
            let p := buildUpdateParams env linkObj Url content
            match env.updateLink p with
            | .error e =>
              (⟨500, [], e⟩, [Event.getLink linkId] ++ fetchEvents ++ [Event.updateLink p])
            | .ok _ =>
              match env.getLink linkId with
              | .error e =>
                (⟨500, [], e⟩,
                 [Event.getLink linkId] ++ fetchEvents ++
                   [Event.updateLink p, Event.getLink linkId])
              | .ok linkObj2 =>
                (respond env req (.link linkObj2),
                 [Event.getLink linkId] ++ fetchEvents ++
                   [Event.updateLink p, Event.getLink linkId])
  else if req.method = "DELETE" then
    let linkIdStr := qp req "id"
    if linkIdStr = "" then (⟨400, [], "Missing link ID"⟩, [])
    else if !(qpOk req "id") then (⟨400, [], "Missing link"⟩, [])
    else
      match atoi linkIdStr with
      | none => (⟨400, [], "Invalid link ID"⟩, [])
      | some linkId =>
        match env.deleteLink linkId with
        | .error e => (⟨500, [], e⟩, [Event.deleteLink linkId])
        | .ok _ =>
          (⟨200, [("Content-Type", "text/html")], ""⟩, [Event.deleteLink linkId])
  else
    (⟨200, [], ""⟩, [])

/-! ## Theorems -/

/-- The title fallback chain exactly as the specification words it ("first
NON-EMPTY match wins"): the trimmed `title` text if non-empty, else the
trimmed `og:title` content if non-empty, else the trimmed `title` meta-name
content if non-empty, else empty. Stated for comparison with
`extractTitle`, which is translated from the code. -/
def specTitle (doc : Doc) : String :=
  if trimSpace doc.titleText != "" then trimSpace doc.titleText
  else if trimSpace (doc.ogTitle.getD "") != "" then trimSpace (doc.ogTitle.getD "")
  else if trimSpace (doc.metaNameTitle.getD "") != "" then
    trimSpace (doc.metaNameTitle.getD "")
  else ""

/-- C1, counterexample: on a document with empty `title` text, an `og:title`
meta tag that exists with empty content, and a `title` meta name with
content "Real Title", the claim predicts the title "Real Title" (the empty
`og:title` falls through), but the code stops at the existing `og:title`
attribute and extracts the empty title. -/
theorem C1_counterexample :
    extractTitle ⟨"", some "", some "Real Title", none, none, []⟩ = "" ∧
    specTitle ⟨"", some "", some "Real Title", none, none, []⟩ = "Real Title" ∧
    extractTitle ⟨"", some "", some "Real Title", none, none, []⟩ ≠
      specTitle ⟨"", some "", some "Real Title", none, none, []⟩ := by
  decide

/-- C1 (amended): the title fallback chain keys on the RAW `<title>` text
being non-empty and on the mere EXISTENCE of the `og:title` / `title` meta
attributes, not on their trimmed values being non-empty: if the raw
`<title>` text is non-empty its trimmed value (possibly empty) is the
result; otherwise if an `og:title` meta property exists its trimmed content
is the result, and an existing-but-empty `og:title` does NOT fall through;
otherwise if a `title` meta name exists its trimmed content is the result;
otherwise the title is empty. -/
theorem C1_title_fallback (doc : Doc) :
    (doc.titleText ≠ "" → extractTitle doc = trimSpace doc.titleText) ∧
    (doc.titleText = "" → ∀ t, doc.ogTitle = some t → extractTitle doc = trimSpace t) ∧
    (doc.titleText = "" → doc.ogTitle = none →
      ∀ t, doc.metaNameTitle = some t → extractTitle doc = trimSpace t) ∧
    (doc.titleText = "" → doc.ogTitle = none → doc.metaNameTitle = none →
      extractTitle doc = "") := by
  refine ⟨fun h => ?_, fun h t ht => ?_, fun h h2 t ht => ?_, fun h h2 h3 => ?_⟩ <;>
    simp [extractTitle, h, *]

/-- C1 witness: the amended fallback at a concrete document whose raw
`<title>` text is empty and whose `og:title` exists. -/
theorem C1_title_fallback_witness :
    extractTitle ⟨"", some " OG Title ", none, none, none, []⟩ = "OG Title" := by
  have h := (C1_title_fallback ⟨"", some " OG Title ", none, none, none, []⟩).2.1
    rfl " OG Title " rfl
  rw [h]; decide

/-- C6: per candidate `src` of the `img` scan — `//`-prefixed sources get
`https:` prepended; `/`-prefixed (but not `//`) sources get the scheme and
host of the (parseable) page URL prepended; `http`-prefixed sources are
used as-is; anything else is skipped (the accumulator stays empty so the
scan continues); and once an image URL has been constructed the rest of the
scan leaves it unchanged. -/
theorem C6_img_resolution (urlStr src : String) (u : GoURL)
    (imgs : List (Option String)) (acc : String) :
    (hasPrefix src "//" = true → imgStep urlStr "" (some src) = "https:" ++ src) ∧
    (hasPrefix src "//" = false → hasPrefix src "/" = true → parseURL urlStr = some u →
      imgStep urlStr "" (some src) = (u.Scheme ++ "://" ++ u.Host) ++ src) ∧
    (hasPrefix src "//" = false → hasPrefix src "/" = false → hasPrefix src "http" = true →
      imgStep urlStr "" (some src) = src) ∧
    (hasPrefix src "//" = false → hasPrefix src "/" = false → hasPrefix src "http" = false →
      imgStep urlStr "" (some src) = "") ∧
    (acc ≠ "" → List.foldl (imgStep urlStr) acc imgs = acc) := by
  refine ⟨fun h1 => ?_, fun h1 h2 h3 => ?_, fun h1 h2 h3 => ?_, fun h1 h2 h3 => ?_,
    fun h => ?_⟩
  · simp [imgStep, h1]
  · simp [imgStep, h1, h2, h3]
  · simp [imgStep, h1, h2, h3]
  · simp [imgStep, h1, h2, h3]
  · induction imgs with
    | nil => rfl
    | cons x xs ih => simpa [imgStep, h] using ih

/-- C6 witness: Example 5 of the specification — the only image
`<img src="/logo.png">` of a page fetched from `https://site.com/post`
resolves to `https://site.com/logo.png`; and an already-constructed image
URL survives further candidates. -/
theorem C6_img_resolution_witness :
    imgStep "https://site.com/post" "" (some "/logo.png") = "https://site.com/logo.png" ∧
    List.foldl (imgStep "https://site.com/post") "https://x/y.png" [some "//cdn/a.png"] =
      "https://x/y.png" := by
  have h := C6_img_resolution "https://site.com/post" "/logo.png" ⟨"https", "site.com"⟩
    [some "//cdn/a.png"] "https://x/y.png"
  constructor
  · rw [h.2.1 (by decide) (by decide) (by decide)]; decide
  · exact h.2.2.2.2 (by decide)

/-- C7: content negotiation in `respond` — with the `hx-request` header set
to `"true"`, a link slice renders the list template, a single link renders
the detail template when `view=detail` is present and the single-link
template otherwise, and any other value shape yields a 400; without the
header (or with any other value) the data is serialized to JSON; and every
200 response carries the content-type header of the branch that produced
its body (`text/html` under negotiation, `application/json` otherwise). -/
theorem C7_respond_negotiation (env : Env) (req : Request) (data : RespondData) :
    (req.hxRequest = "true" →
      (∀ v, data = .links v →
        (∀ s, env.execTemplate .list data = .ok s →
          respond env req data = ⟨200, [("Content-Type", "text/html")], s⟩) ∧
        (∀ e, env.execTemplate .list data = .error e →
          respond env req data = ⟨500, [], ""⟩)) ∧
      (∀ l, data = .link l → qp req "view" = "detail" →
        (∀ s, env.execTemplate .detail data = .ok s →
          respond env req data = ⟨200, [("Content-Type", "text/html")], s⟩) ∧
        (∀ e, env.execTemplate .detail data = .error e →
          respond env req data = ⟨500, [], ""⟩)) ∧
      (∀ l, data = .link l → qp req "view" ≠ "detail" →
        (∀ s, env.execTemplate .link data = .ok s →
          respond env req data = ⟨200, [("Content-Type", "text/html")], s⟩) ∧
        (∀ e, env.execTemplate .link data = .error e →
          respond env req data = ⟨500, [], ""⟩)) ∧
      (data = .other → respond env req data = ⟨400, [], ""⟩)) ∧
    (req.hxRequest ≠ "true" →
      (∀ s, env.jsonMarshal data = .ok s →
        respond env req data = ⟨200, [("Content-Type", "application/json")], s⟩) ∧
      (∀ e, env.jsonMarshal data = .error e →
        respond env req data = ⟨500, [], ""⟩)) ∧
    ((respond env req data).statusCode = 200 →
      (req.hxRequest = "true" ∧
        (respond env req data).headers = [("Content-Type", "text/html")]) ∨
      (req.hxRequest ≠ "true" ∧
        (respond env req data).headers = [("Content-Type", "application/json")])) := by
  refine ⟨fun hx => ⟨fun v hv => ⟨fun s hs => ?_, fun e he => ?_⟩,
      fun l hl hview => ⟨fun s hs => ?_, fun e he => ?_⟩,
      fun l hl hview => ⟨fun s hs => ?_, fun e he => ?_⟩, fun ho => ?_⟩,
    fun hx => ⟨fun s hs => ?_, fun e he => ?_⟩, fun h200 => ?_⟩ <;>
    try (subst_vars; simp_all [respond])
  by_cases hx : req.hxRequest = "true"
  · left
    refine ⟨hx, ?_⟩
    cases data with
    | links v =>
        cases hts : env.execTemplate .list (.links v) <;>
          simp_all [respond]
    | link l =>
        by_cases hview : qp req "view" = "detail"
        · cases hts : env.execTemplate .detail (.link l) <;> simp_all [respond]
        · cases hts : env.execTemplate .link (.link l) <;> simp_all [respond]
    | other => simp_all [respond]
  · right
    refine ⟨hx, ?_⟩
    cases hts : env.jsonMarshal data <;> simp_all [respond]

/-- Environment for the create/re-read scenario: the store accepts the
insert (new id 7) but every read fails; the metadata fetch fails; JSON
marshalling succeeds. -/
def envC2 : Env where
  sqlOpen := .ok ()
  execDDL := .ok ()
  fetch := fun _ => .error "network down"
  parseQuery := fun _ => .ok [("url", "https://ex.com"), ("commentary", "hi")]
  getLink := fun _ => .error "row not found"
  listLinks := .ok []
  createLink := fun _ => .ok 7
  updateLink := fun _ => .ok ()
  deleteLink := fun _ => .ok ()
  execTemplate := fun _ _ => .ok ""
  jsonMarshal := fun _ => .ok "null"

/-- The POST request of the create/re-read scenario (JSON client). -/
def reqC2 : Request := ⟨"POST", [], "url=https://ex.com&commentary=hi", ""⟩

/-- C2, counterexample: with a store whose insert succeeds (id 7) but whose
re-read fails, the dispatcher answers 200, not 500 — the error of the
re-read `GetLink` is discarded (`createdLink, err := queries.GetLink(...)`
is never checked), so a store failure on the re-read does NOT surface as a
`StoreError`. -/
theorem C2_counterexample :
    envC2.createLink (buildCreateParams envC2 "https://ex.com" "hi") = .ok 7 ∧
    envC2.getLink 7 = .error "row not found" ∧
    Event.getLink 7 ∈ (handler envC2 reqC2).2 ∧
    (handler envC2 reqC2).1.statusCode = 200 := by
  refine ⟨rfl, rfl, by decide, by decide⟩

/-- C2 (amended): on create with valid payload, a store failure on the
WRITE surfaces as 500 with the error text; when the write succeeds the
dispatcher re-reads the created Link by its newly assigned identifier, but
a failure of that re-read is silently discarded: the re-read result — the
fetched row on success, the zero-valued `Link` on failure — is what is
handed to the Renderer. -/
theorem C2_create_reread (env : Env) (req : Request) (form : List (String × String))
    (hopen : env.sqlOpen = .ok ()) (hddl : env.execDDL = .ok ())
    (hm : req.method = "POST") (hp : env.parseQuery req.body = .ok form)
    (hu : formGet form "url" ≠ "") (hc : formGet form "commentary" ≠ "") :
    (∀ e, env.createLink
        (buildCreateParams env (formGet form "url") (formGet form "commentary")) =
          .error e →
      (handler env req).1 = ⟨500, [], e⟩) ∧
    (∀ cid, env.createLink
        (buildCreateParams env (formGet form "url") (formGet form "commentary")) =
          .ok cid →
      Event.getLink cid ∈ (handler env req).2 ∧
      (handler env req).1 = respond env req (.link (getLinkOr env cid))) := by
  constructor
  · intro e he
    simp [handler, hopen, hddl, hm, hp, hu, hc, he]
  · intro cid hcid
    simp [handler, hopen, hddl, hm, hp, hu, hc, hcid]

/-- C2 witness: the amended statement applied to the concrete scenario
(write succeeds with id 7, re-read fails, zero `Link` rendered as JSON). -/
theorem C2_create_reread_witness :
    Event.getLink 7 ∈ (handler envC2 reqC2).2 ∧
    (handler envC2 reqC2).1 = respond envC2 reqC2 (.link (getLinkOr envC2 7)) := by
  exact (C2_create_reread envC2 reqC2 [("url", "https://ex.com"), ("commentary", "hi")]
    rfl rfl rfl rfl (by decide) (by decide)).2 7 rfl

/-- Environment for the edit-form scenario: every store read fails, the
body parses to an empty form, and the edit template renders. -/
def envC4 : Env where
  sqlOpen := .ok ()
  execDDL := .ok ()
  fetch := fun _ => .error "network down"
  parseQuery := fun _ => .ok []
  getLink := fun _ => .error "no such row"
  listLinks := .ok []
  createLink := fun _ => .ok 1
  updateLink := fun _ => .ok ()
  deleteLink := fun _ => .ok ()
  execTemplate := fun t _ => if t = .edit then .ok "<form>" else .ok ""
  jsonMarshal := fun _ => .ok "{}"

/-- The edit-form request with an unparseable id. -/
def reqC4 : Request := ⟨"PUT", [("id", "abc")], "", ""⟩

/-- C4, counterexample: a PUT with empty body and the unparseable id "abc",
against a store whose fetch fails, answers 200 with the rendered edit form —
not 400 (the `Atoi` error is shadowed and discarded, the id is used as 0)
and not 500 (the `GetLink` error is likewise discarded and the zero-valued
`Link` is rendered). -/
theorem C4_counterexample :
    atoi "abc" = none ∧
    envC4.getLink 0 = .error "no such row" ∧
    (handler envC4 reqC4).1 = ⟨200, [("Content-Type", "text/html")], "<form>"⟩ := by
  refine ⟨rfl, rfl, by decide⟩

/-- C4 (amended): in the edit-form branch (empty parsed body, `id`
present), the integer-parse error and the store-fetch error are both
discarded: an unparseable id is treated as identifier 0, a failed fetch
renders the zero-valued `Link`, the response is 500 only when the
edit-template execution fails, and otherwise it is 200 text/html with the
rendered form. -/
theorem C4_edit_form (env : Env) (req : Request)
    (hopen : env.sqlOpen = .ok ()) (hddl : env.execDDL = .ok ())
    (hm : req.method = "PUT") (hp : env.parseQuery req.body = .ok [])
    (hid : qp req "id" ≠ "") :
    (∀ e, env.execTemplate .edit
        (.link (getLinkOr env ((atoi (qp req "id")).getD 0))) = .error e →
      (handler env req).1 = ⟨500, [], e⟩) ∧
    (∀ s, env.execTemplate .edit
        (.link (getLinkOr env ((atoi (qp req "id")).getD 0))) = .ok s →
      (handler env req).1 = ⟨200, [("Content-Type", "text/html")], s⟩) := by
  constructor <;> intro x hx <;> simp [handler, hopen, hddl, hm, hp, hid, hx]

/-- C4 witness: the amended statement applied to the concrete edit-form
scenario (unparseable id, failing store fetch, succeeding template). -/
theorem C4_edit_form_witness :
    (handler envC4 reqC4).1 = ⟨200, [("Content-Type", "text/html")], "<form>"⟩ := by
  exact (C4_edit_form envC4 reqC4 rfl rfl rfl rfl (by decide)).2 "<form>" rfl

/-- C5: a create (POST) or full-update (PUT with non-empty parsed body,
the current row readable) request whose form lacks `url` or `commentary`
is answered 400 "Invalid request body" and the trace contains no store
write — the stored state is untouched by the rejected request. -/
theorem C5_validation_before_write (env : Env) (req : Request)
    (form : List (String × String))
    (hopen : env.sqlOpen = .ok ()) (hddl : env.execDDL = .ok ())
    (hp : env.parseQuery req.body = .ok form)
    (hinv : formGet form "url" = "" ∨ formGet form "commentary" = "")
    (hmethod : req.method = "POST" ∨
      (req.method = "PUT" ∧ form ≠ [] ∧
        ∃ l, env.getLink ((atoi (qp req "id")).getD 0) = .ok l)) :
    (handler env req).1.statusCode = 400 ∧
    (handler env req).1.body = "Invalid request body" ∧
    ∀ e ∈ (handler env req).2, e.isWrite = false := by
  rcases hmethod with hm | ⟨hm, hne, l, hget⟩
  · rcases hinv with h | h <;>
      simp [handler, hopen, hddl, hm, hp, h, Event.isWrite]
  · have hne' : form.isEmpty = false := by
      cases form with
      | nil => exact absurd rfl hne
      | cons a t => rfl
    rcases hinv with h | h <;>
      simp [handler, hopen, hddl, hm, hp, hne', hget, h, Event.isWrite]

/-- C3: a full update (PUT, non-empty parsed body) whose submitted `url`
equals the stored one performs no metadata fetch, and the persisted
`UpdateLinkParams` carry the stored `Title`/`ImageUrl` forward exactly —
only `url` (unchanged here) and `commentary` come from the request. -/
theorem C3_unchanged_url_preserves_metadata (env : Env) (req : Request)
    (form : List (String × String)) (linkObj : Link)
    (hopen : env.sqlOpen = .ok ()) (hddl : env.execDDL = .ok ())
    (hm : req.method = "PUT") (hp : env.parseQuery req.body = .ok form)
    (hne : form ≠ [])
    (hget : env.getLink ((atoi (qp req "id")).getD 0) = .ok linkObj)
    (hu : formGet form "url" = linkObj.Url) (hnz : linkObj.Url ≠ "")
    (hc : formGet form "commentary" ≠ "") :
    (∀ u, Event.fetchMeta u ∉ (handler env req).2) ∧
    Event.updateLink ⟨linkObj.ID, linkObj.Url, formGet form "commentary",
      linkObj.Title, linkObj.ImageUrl⟩ ∈ (handler env req).2 := by
  have hne' : form.isEmpty = false := by
    cases form with
    | nil => exact absurd rfl hne
    | cons a t => rfl
  have hbup : buildUpdateParams env linkObj linkObj.Url (formGet form "commentary") =
      ⟨linkObj.ID, linkObj.Url, formGet form "commentary",
        linkObj.Title, linkObj.ImageUrl⟩ := by
    simp [buildUpdateParams]
  cases hupd : env.updateLink ⟨linkObj.ID, linkObj.Url, formGet form "commentary",
      linkObj.Title, linkObj.ImageUrl⟩ with
  | ok u =>
      refine ⟨fun v => ?_, ?_⟩ <;>
        simp [handler, hopen, hddl, hm, hp, hne', hget, hu, hnz, hc, hbup, hupd]
  | error e =>
      refine ⟨fun v => ?_, ?_⟩ <;>
        simp [handler, hopen, hddl, hm, hp, hne', hget, hu, hnz, hc, hbup, hupd]

/-- The stored row used by the witness scenarios. -/
def linkW : Link := ⟨1, "https://old.com", "old", ⟨"Old", true⟩, ⟨"img", true⟩⟩

/-- Shared concrete environment for witnesses: a store holding `linkW`
under id 1, a resolver that finds the title " T " and the og:image
`https://cdn/img.png`, and successful templates/marshalling. -/
def envW : Env where
  sqlOpen := .ok ()
  execDDL := .ok ()
  fetch := fun _ => .ok ⟨" T ", none, none, some "https://cdn/img.png", none, []⟩
  parseQuery := fun b =>
    if b = "commentary=hi" then .ok [("commentary", "hi")]
    else if b = "url=https://new.com&commentary=c2" then
      .ok [("url", "https://new.com"), ("commentary", "c2")]
    else if b = "url=https://old.com&commentary=c2" then
      .ok [("url", "https://old.com"), ("commentary", "c2")]
    else .ok []
  getLink := fun i => if i = 1 then .ok linkW else .error "not found"
  listLinks := .ok [linkW]
  createLink := fun _ => .ok 2
  updateLink := fun _ => .ok ()
  deleteLink := fun _ => .ok ()
  execTemplate := fun _ _ => .ok "frag"
  jsonMarshal := fun _ => .ok "\x7b\x7d"

/-- C3 witness: updating link 1 with its stored url performs no metadata
fetch and persists the stored metadata unchanged. -/
theorem C3_unchanged_url_preserves_metadata_witness :
    (∀ u, Event.fetchMeta u ∉
      (handler envW ⟨"PUT", [("id", "1")], "url=https://old.com&commentary=c2", ""⟩).2) ∧
    Event.updateLink ⟨1, "https://old.com", "c2", ⟨"Old", true⟩, ⟨"img", true⟩⟩ ∈
      (handler envW ⟨"PUT", [("id", "1")], "url=https://old.com&commentary=c2", ""⟩).2 := by
  exact C3_unchanged_url_preserves_metadata envW
    ⟨"PUT", [("id", "1")], "url=https://old.com&commentary=c2", ""⟩
    [("url", "https://old.com"), ("commentary", "c2")] linkW
    rfl rfl rfl rfl (by decide) rfl (by decide) (by decide) (by decide)

/-- C5 witness: a POST lacking `url` is rejected 400 with no store write. -/
theorem C5_validation_before_write_witness :
    (handler envW ⟨"POST", [], "commentary=hi", ""⟩).1.statusCode = 400 ∧
    (handler envW ⟨"POST", [], "commentary=hi", ""⟩).1.body = "Invalid request body" ∧
    ∀ e ∈ (handler envW ⟨"POST", [], "commentary=hi", ""⟩).2, e.isWrite = false := by
  exact C5_validation_before_write envW ⟨"POST", [], "commentary=hi", ""⟩
    [("commentary", "hi")] rfl rfl rfl (Or.inl rfl) (Or.inl rfl)

/-- C7 witness: the negotiation applied to a fragment-capable GET-list
result with a succeeding list template. -/
theorem C7_respond_negotiation_witness :
    respond envW ⟨"GET", [], "", "true"⟩ (.links []) =
      ⟨200, [("Content-Type", "text/html")], "frag"⟩ := by
  exact ((C7_respond_negotiation envW ⟨"GET", [], "", "true"⟩ (.links [])).1
    rfl).1 [] rfl |>.1 "frag" rfl

/-- A non-empty query-parameter value implies the two-valued map access
reports the key as present. -/
theorem qp_ne_empty_qpOk (req : Request) (k : String) (h : qp req k ≠ "") :
    qpOk req k = true := by
  unfold qp at h
  unfold qpOk
  cases hl : req.queryParams.lookup k with
  | none => rw [hl] at h; exact absurd rfl h
  | some v => rfl

/-- C8: the DELETE branch — absent/empty `id` answers 400 "Missing link
ID"; a present but unparseable `id` answers 400 "Invalid link ID"; a store
delete failure answers 500 with the error text; otherwise 200 with an
empty body. -/
theorem C8_delete (env : Env) (req : Request)
    (hopen : env.sqlOpen = .ok ()) (hddl : env.execDDL = .ok ())
    (hm : req.method = "DELETE") :
    (qp req "id" = "" → (handler env req).1 = ⟨400, [], "Missing link ID"⟩) ∧
    (qp req "id" ≠ "" → atoi (qp req "id") = none →
      (handler env req).1 = ⟨400, [], "Invalid link ID"⟩) ∧
    (∀ n, qp req "id" ≠ "" → atoi (qp req "id") = some n →
      (∀ e, env.deleteLink n = .error e → (handler env req).1 = ⟨500, [], e⟩) ∧
      (env.deleteLink n = .ok () →
        (handler env req).1 = ⟨200, [("Content-Type", "text/html")], ""⟩)) := by
  refine ⟨fun h => ?_, fun h hbad => ?_, fun n h hn => ⟨fun e he => ?_, fun hok => ?_⟩⟩
  · simp [handler, hopen, hddl, hm, h]
  · simp [handler, hopen, hddl, hm, h, qp_ne_empty_qpOk req "id" h, hbad]
  · simp [handler, hopen, hddl, hm, h, qp_ne_empty_qpOk req "id" h, hn, he]
  · simp [handler, hopen, hddl, hm, h, qp_ne_empty_qpOk req "id" h, hn, hok]

/-- C8 witness: deleting id 5 against a succeeding store answers 200 with
an empty body. -/
theorem C8_delete_witness :
    (handler envW ⟨"DELETE", [("id", "5")], "", ""⟩).1 =
      ⟨200, [("Content-Type", "text/html")], ""⟩ := by
  exact ((C8_delete envW ⟨"DELETE", [("id", "5")], "", ""⟩ rfl rfl rfl).2.2
    5 (by decide) (by decide)).2 rfl

/-- The id of the built `UpdateLinkParams` is always the fetched row's id. -/
theorem buildUpdateParams_ID (env : Env) (l : Link) (u c : String) :
    (buildUpdateParams env l u c).ID = l.ID := by
  unfold buildUpdateParams
  split
  · cases fetchMetadata env.fetch u <;> rfl
  · rfl

/-- C9: in the full-update branch (PUT, non-empty parsed body) with an
unparseable `id`, the parse failure is discarded: the dispatcher always
fetches identifier 0; only a failure of that fetch yields the 400; and when
a Link with identifier 0 exists, the update is applied to that row
(`UpdateLink` is called with its id). -/
theorem C9_put_unparseable_id (env : Env) (req : Request)
    (form : List (String × String))
    (hopen : env.sqlOpen = .ok ()) (hddl : env.execDDL = .ok ())
    (hm : req.method = "PUT") (hp : env.parseQuery req.body = .ok form)
    (hne : form ≠ []) (hbad : atoi (qp req "id") = none) :
    Event.getLink 0 ∈ (handler env req).2 ∧
    (∀ e, env.getLink 0 = .error e →
      (handler env req).1 = ⟨400, [], "Invalid link ID"⟩) ∧
    (∀ l, env.getLink 0 = .ok l →
      formGet form "url" ≠ "" → formGet form "commentary" ≠ "" →
      (buildUpdateParams env l (formGet form "url") (formGet form "commentary")).ID =
        l.ID ∧
      Event.updateLink
          (buildUpdateParams env l (formGet form "url") (formGet form "commentary")) ∈
        (handler env req).2) := by
  have hne' : form.isEmpty = false := by
    cases form with
    | nil => exact absurd rfl hne
    | cons a t => rfl
  refine ⟨?_, fun e he => ?_, fun l hl hu hc => ?_⟩
  · cases hget : env.getLink 0 with
    | error e => simp [handler, hopen, hddl, hm, hp, hne', hbad, hget]
    | ok l =>
        by_cases hc : formGet form "commentary" = ""
        · simp [handler, hopen, hddl, hm, hp, hne', hbad, hget, hc]
        · by_cases hu : formGet form "url" = ""
          · simp [handler, hopen, hddl, hm, hp, hne', hbad, hget, hc, hu]
          · cases hupd : env.updateLink
                (buildUpdateParams env l (formGet form "url")
                  (formGet form "commentary")) <;>
              simp [handler, hopen, hddl, hm, hp, hne', hbad, hget, hc, hu, hupd]
  · simp [handler, hopen, hddl, hm, hp, hne', hbad, he]
  · refine ⟨buildUpdateParams_ID env l _ _, ?_⟩
    cases hupd : env.updateLink
        (buildUpdateParams env l (formGet form "url") (formGet form "commentary")) <;>
      simp [handler, hopen, hddl, hm, hp, hne', hbad, hl, hu, hc, hupd]

/-- C9 witness: a PUT with the unparseable id "xyz" against a store with no
row 0 answers 400 "Invalid link ID" only because the fetch of identifier 0
fails. -/
theorem C9_put_unparseable_id_witness :
    Event.getLink 0 ∈
      (handler envW ⟨"PUT", [("id", "xyz")], "url=https://new.com&commentary=c2", ""⟩).2 ∧
    (handler envW ⟨"PUT", [("id", "xyz")], "url=https://new.com&commentary=c2", ""⟩).1 =
      ⟨400, [], "Invalid link ID"⟩ := by
  have h := C9_put_unparseable_id envW
    ⟨"PUT", [("id", "xyz")], "url=https://new.com&commentary=c2", ""⟩
    [("url", "https://new.com"), ("commentary", "c2")]
    rfl rfl rfl rfl (by decide) (by decide)
  exact ⟨h.1, h.2.1 "not found" rfl⟩

/-- C10: on create, and on update with a changed url, when the resolver
succeeds the persisted `NullString`s hold exactly the extracted strings
with the validity flag set if and only if the string is non-empty — these
paths never persist a present-but-empty `title` or `imageURL`. -/
theorem C10_metadata_validity (env : Env) (req : Request)
    (form : List (String × String)) (m : LinkMetadata)
    (hopen : env.sqlOpen = .ok ()) (hddl : env.execDDL = .ok ())
    (hp : env.parseQuery req.body = .ok form)
    (hu : formGet form "url" ≠ "") (hc : formGet form "commentary" ≠ "")
    (hfetch : fetchMetadata env.fetch (formGet form "url") = .ok m) :
    (req.method = "POST" →
      ∀ p, Event.createLink p ∈ (handler env req).2 →
        p.Title = ⟨m.Title, m.Title != ""⟩ ∧
        p.ImageUrl = ⟨m.ImageURL, m.ImageURL != ""⟩ ∧
        (p.Title.valid = true ↔ p.Title.string ≠ "") ∧
        (p.ImageUrl.valid = true ↔ p.ImageUrl.string ≠ "")) ∧
    (req.method = "PUT" → ∀ linkObj,
      env.getLink ((atoi (qp req "id")).getD 0) = .ok linkObj →
      formGet form "url" ≠ linkObj.Url →
      ∀ p, Event.updateLink p ∈ (handler env req).2 →
        p.Title = ⟨m.Title, m.Title != ""⟩ ∧
        p.ImageUrl = ⟨m.ImageURL, m.ImageURL != ""⟩ ∧
        (p.Title.valid = true ↔ p.Title.string ≠ "") ∧
        (p.ImageUrl.valid = true ↔ p.ImageUrl.string ≠ "")) := by
  have hbcp : buildCreateParams env (formGet form "url") (formGet form "commentary") =
      ⟨formGet form "url", formGet form "commentary",
        ⟨m.Title, m.Title != ""⟩, ⟨m.ImageURL, m.ImageURL != ""⟩⟩ := by
    simp [buildCreateParams, hfetch]
  constructor
  · intro hm p hmem
    cases hcl : env.createLink
        (buildCreateParams env (formGet form "url") (formGet form "commentary")) <;>
    · simp [handler, hopen, hddl, hm, hp, hu, hc, hcl] at hmem
      rw [hbcp] at hmem
      subst hmem
      simp [bne_iff_ne]
  · intro hm linkObj hget hdiff p hmem
    have hne' : form.isEmpty = false := by
      cases form with
      | nil => exact absurd rfl hu
      | cons a t => rfl
    have hbup : buildUpdateParams env linkObj (formGet form "url")
        (formGet form "commentary") =
        ⟨linkObj.ID, formGet form "url", formGet form "commentary",
          ⟨m.Title, m.Title != ""⟩, ⟨m.ImageURL, m.ImageURL != ""⟩⟩ := by
      simp [buildUpdateParams, hdiff, hfetch]
    cases hupd : env.updateLink
        (buildUpdateParams env linkObj (formGet form "url")
          (formGet form "commentary")) <;>
    · simp [handler, hopen, hddl, hm, hp, hne', hget, hu, hc, hdiff, hupd,
        bne_iff_ne] at hmem
      rw [hbup] at hmem
      subst hmem
      simp [bne_iff_ne]

/-- C10 witness: creating a link whose page resolves to title " T " (trimmed
"T") and og:image `https://cdn/img.png` persists both fields with the
validity flag set. -/
theorem C10_metadata_validity_witness :
    Event.createLink ⟨"https://new.com", "c2", ⟨"T", true⟩,
        ⟨"https://cdn/img.png", true⟩⟩ ∈
      (handler envW ⟨"POST", [], "url=https://new.com&commentary=c2", ""⟩).2 ∧
    ((⟨"T", true⟩ : NullString).valid = true ↔
      (⟨"T", true⟩ : NullString).string ≠ "") := by
  have h := (C10_metadata_validity envW
    ⟨"POST", [], "url=https://new.com&commentary=c2", ""⟩
    [("url", "https://new.com"), ("commentary", "c2")] ⟨"T", "https://cdn/img.png"⟩
    rfl rfl rfl (by decide) (by decide) rfl).1 rfl
  have hmem : Event.createLink ⟨"https://new.com", "c2", ⟨"T", true⟩,
      ⟨"https://cdn/img.png", true⟩⟩ ∈
      (handler envW ⟨"POST", [], "url=https://new.com&commentary=c2", ""⟩).2 := by
    decide
  exact ⟨hmem, (h _ hmem).2.2.1⟩

end Linklog
